import Mathlib

/-!
Verification of the Exchequer backend's payment-event reconciliation workflow.

The definitions below are a shallow embedding of the server code
(`server.js`): the Firestore document store is modelled as association
lists keyed by `(organizationId, memberId)` paths, Stripe objects as plain
structures, webhook dispatch and the three event handlers as pure state
transformers, and the HTTP endpoints as functions from request bodies and
an environment (configuration, fresh ids, today's date) to a response
status, the updated store, and the trace of provider calls made.

JS `await`-ed store writes and provider calls can reject; rejection points
are modelled by explicit fault flags (`Faults`) and by `Option`-valued
provider lookups, and the `try`/`catch` structure of the source is
mirrored by where a failure turns into `HandlerOutcome.returned true`
(caught and logged inside the handler) versus `HandlerOutcome.threw`
(escapes to the route-level catch).
-/

namespace Exchequer

/-! ## Association-list primitives (model of Firestore document paths) -/

/-- Look up the document stored at `key`, first match wins. -/
def alistLookup {K V : Type} [DecidableEq K] (key : K) : List (K × V) → Option V
  | [] => none
  | kv :: rest => if kv.1 = key then some kv.2 else alistLookup key rest

/-- `set(..., {merge:true})` on a document path: if the document exists the
update function receives it, otherwise it receives `none`; the result
replaces (or appends) the document. -/
def alistUpsert {K V : Type} [DecidableEq K] (key : K) (upd : Option V → V) :
    List (K × V) → List (K × V)
  | [] => [(key, upd none)]
  | kv :: rest =>
    if kv.1 = key then (key, upd (some kv.2)) :: rest
    else kv :: alistUpsert key upd rest

theorem alistLookup_upsert_self {K V : Type} [DecidableEq K] (key : K)
    (upd : Option V → V) (l : List (K × V)) :
    alistLookup key (alistUpsert key upd l) = some (upd (alistLookup key l)) := by
  induction l with
  | nil => simp [alistLookup, alistUpsert]
  | cons kv rest ih =>
    by_cases h : kv.1 = key
    · simp [alistLookup, alistUpsert, h]
    · simp [alistLookup, alistUpsert, h, ih]

theorem alistUpsert_idem {K V : Type} [DecidableEq K] (key : K)
    (upd : Option V → V) (h : ∀ x, upd (some (upd x)) = upd x) (l : List (K × V)) :
    alistUpsert key upd (alistUpsert key upd l) = alistUpsert key upd l := by
  induction l with
  | nil => simp [alistUpsert, h]
  | cons kv rest ih =>
    by_cases hk : kv.1 = key
    · simp [alistUpsert, hk, h]
    · simp [alistUpsert, hk, ih]

/-! ## Stripe payload objects -/

/-- The metadata object attached to a Stripe payment intent
(`paymentIntent.metadata`). -/
structure Metadata where
  memberId : String
  organizationId : String
  paymentType : String
  memberName : String
deriving DecidableEq, Repr

/-- A Stripe payment-intent object as seen by the webhook handlers.
`metadata` is `none` when the payload carries no metadata object at all,
in which case the JS destructuring `const {...} = paymentIntent.metadata`
throws. Amounts are integer minor-currency units. -/
structure PaymentIntentObj where
  id : String
  amount : Nat
  latest_charge : String
  description : String
  metadata : Option Metadata
  last_payment_error_message : Option String
deriving DecidableEq, Repr

/-- One entry of `charge.refunds.data`. -/
structure RefundObj where
  id : String
deriving DecidableEq, Repr

/-- A Stripe charge object as delivered by a `charge.refunded` event. -/
structure ChargeObj where
  id : String
  payment_intent : String
  amount_refunded : Nat
  refunds : List RefundObj
deriving DecidableEq, Repr

/-- The inbound webhook event after `stripe.webhooks.constructEvent`. -/
inductive StripeEvent
  | paymentIntentSucceeded (p : PaymentIntentObj)
  | paymentIntentFailed (p : PaymentIntentObj)
  | chargeRefunded (c : ChargeObj)
  | other (eventType : String)
deriving DecidableEq, Repr

/-! ## Local record types (Firestore documents) -/

/-- A `dues` document. Fields a merge write never touched are `none`
(with `""`/`0` for the always-written ones when created fresh). -/
structure DuesRecord where
  memberName : String := ""
  amount : Rat := 0
  status : String := ""
  dueDate : Option String := none
  paidDate : Option String := none
  paymentIntentId : Option String := none
  stripeChargeId : Option String := none
  failureReason : Option String := none
  refundDate : Option String := none
  refundId : Option String := none
deriving DecidableEq, Repr

/-- A `donations` document (append-only, created by `collection.add`). -/
structure DonationRecord where
  campaignName : String
  donorName : String
  amount : Rat
  date : String
  paymentIntentId : String
deriving DecidableEq, Repr

/-- A `payment_intents` document written at intent issuance.
`createdAt` is the server timestamp, modelled as a `Nat`. -/
structure PaymentIntentRecord where
  paymentIntentId : String
  amount : Nat
  currency : String
  status : String
  description : String
  createdAt : Nat
  memberId : String
  memberName : String
deriving DecidableEq, Repr

/-- An `expenses` document. All fields optional: the reimbursement merge
write creates documents carrying only its four fields. -/
structure ExpenseRecord where
  submitterName : Option String := none
  amount : Option Rat := none
  category : Option String := none
  description : Option String := none
  date : Option String := none
  status : Option String := none
  receiptUrl : Option String := none
  submittedAt : Option String := none
  memberId : Option String := none
  organizationId : Option String := none
  reimbursementDate : Option String := none
  transferId : Option String := none
deriving DecidableEq, Repr

/-- A `members` document (the fields the server reads). -/
structure MemberData where
  name : String
  email : String
deriving DecidableEq, Repr

/-- The record store: each collection is an association list keyed by the
Firestore document path `(organizationId, memberId)` (plus the document id
for `expenses`; `donations` and `payment_intents` keep insertion order for
auto-id documents). -/
structure Store where
  members : List ((String × String) × MemberData)
  dues : List ((String × String) × DuesRecord)
  donations : List ((String × String) × DonationRecord)
  paymentIntents : List ((String × String) × PaymentIntentRecord)
  expenses : List ((String × String × String) × ExpenseRecord)
deriving DecidableEq, Repr

/-- The store with every collection empty. -/
def emptyStore : Store := ⟨[], [], [], [], []⟩

/-! ## Environment and effect bookkeeping -/

/-- Ambient configuration and the values external systems would generate
during one request: fresh Stripe ids, the processing date
(`new Date().toISOString().split('T')[0]`), the server timestamp. -/
structure Env where
  dbPresent : Bool
  stripeConfigured : Bool
  stripeCustomersByEmail : List (String × String)
  freshCustomerId : String
  freshIntentId : String
  clientSecret : String
  intentInitialStatus : String
  now : Nat
  nowIso : String
  today : String
  freshDocId : String
  freshExpenseId : String
  freshTransferId : String
deriving Repr

/-- Which `await`-ed store writes reject during this request. -/
structure Faults where
  duesWriteFails : Bool := false
  donationWriteFails : Bool := false
deriving DecidableEq, Repr

/-- No store write rejects. -/
def noFaults : Faults := ⟨false, false⟩

/-- Parameters of a `stripe.paymentIntents.create` call. -/
structure IntentCreateParams where
  amount : Int
  currency : String
  customer : String
  description : String
  metadata : List (String × String)
deriving DecidableEq, Repr

/-- Parameters of a `stripe.transfers.create` call. -/
structure TransferCreateParams where
  amount : Int
  currency : String
  destination : String
  description : String
  metadata : List (String × String)
deriving DecidableEq, Repr

/-- One outbound call to the payment provider. -/
inductive ProviderCall
  | customersList (email : String)
  | customersCreate (email name : String) (metadata : List (String × String))
  | intentCreate (params : IntentCreateParams)
  | transferCreate (params : TransferCreateParams)
  | intentRetrieve (intentId : String)
deriving DecidableEq, Repr

/-- How a webhook handler finished: `threw` when an exception escaped the
handler (reaching the route-level catch), `returned logged` when the
handler returned normally, `logged` recording whether its internal catch
fired. -/
inductive HandlerOutcome
  | threw
  | returned (errorLogged : Bool)
deriving DecidableEq, Repr

/-! ## Webhook event handlers (`handlePaymentSuccess` / `handlePaymentFailure`
/ `handleRefund`) -/

/-- The merge write `handlePaymentSuccess` issues on the dues document
(source lines 229-237): sets name, major-unit amount (`amount / 100`),
status `Paid`, due/paid date = today, intent id and latest charge id;
fields it does not mention are kept from the existing document. -/
def successDuesMerge (today : String) (md : Metadata) (p : PaymentIntentObj)
    (old : Option DuesRecord) : DuesRecord :=
  let base := old.getD {}
  { base with
    memberName := md.memberName
    amount := (p.amount : Rat) / 100
    status := "Paid"
    dueDate := some today
    paidDate := some today
    paymentIntentId := some p.id
    stripeChargeId := some p.latest_charge }

/-- The donation document appended by `handlePaymentSuccess` when the
intent's `paymentType` is `donation` (source lines 241-249). -/
def donationOf (today : String) (md : Metadata) (p : PaymentIntentObj) : DonationRecord :=
  { campaignName := p.description
    donorName := md.memberName
    amount := (p.amount : Rat) / 100
    date := today
    paymentIntentId := p.id }

/-- `handlePaymentSuccess` (source lines 220-256). The metadata
destructuring happens before the `try` block, so a missing metadata object
throws out of the handler; everything else (a null db, a rejected write)
is caught by the handler's own catch and only logged. -/
def handlePaymentSuccess (env : Env) (f : Faults) (p : PaymentIntentObj)
    (s : Store) : Store × List ProviderCall × HandlerOutcome :=
  match p.metadata with
  | none => (s, [], .threw)
  | some md =>
    if ¬ env.dbPresent then (s, [], .returned true)
    else if f.duesWriteFails then (s, [], .returned true)
    else
      let dues1 := alistUpsert (md.organizationId, md.memberId)
        (successDuesMerge env.today md p) s.dues
      let s1 := { s with dues := dues1 }
      if md.paymentType = "donation" then
        if f.donationWriteFails then (s1, [], .returned true)
        else
          let dons1 := s1.donations ++ [((md.organizationId, md.memberId), donationOf env.today md p)]
          ({ s1 with donations := dons1 }, [], .returned false)
      else (s1, [], .returned false)

/-- The merge write `handlePaymentFailure` issues on the dues document
(source lines 268-275): status `Failed` and a failure reason with a
generic fallback; paid date and charge id are not touched. -/
def failureDuesMerge (today : String) (md : Metadata) (p : PaymentIntentObj)
    (old : Option DuesRecord) : DuesRecord :=
  let base := old.getD {}
  { base with
    memberName := md.memberName
    amount := (p.amount : Rat) / 100
    status := "Failed"
    dueDate := some today
    paymentIntentId := some p.id
    failureReason := some (p.last_payment_error_message.getD "Payment failed") }

/-- `handlePaymentFailure` (source lines 259-281). Same shape as the
success handler: metadata destructured before the `try`, store failure
caught inside. -/
def handlePaymentFailure (env : Env) (f : Faults) (p : PaymentIntentObj)
    (s : Store) : Store × List ProviderCall × HandlerOutcome :=
  match p.metadata with
  | none => (s, [], .threw)
  | some md =>
    if ¬ env.dbPresent then (s, [], .returned true)
    else if f.duesWriteFails then (s, [], .returned true)
    else
      let dues1 := alistUpsert (md.organizationId, md.memberId)
        (failureDuesMerge env.today md p) s.dues
      ({ s with dues := dues1 }, [], .returned false)

/-- The merge write `handleRefund` issues on the dues document (source
lines 295-301): refunded major-unit amount, status `Refunded`, refund date
= today, refund id from the first refund entry. -/
def refundDuesMerge (today : String) (md : Metadata) (c : ChargeObj)
    (refundId : String) (old : Option DuesRecord) : DuesRecord :=
  let base := old.getD {}
  { base with
    memberName := md.memberName
    amount := (c.amount_refunded : Rat) / 100
    status := "Refunded"
    refundDate := some today
    refundId := some refundId }

/-- `handleRefund` (source lines 284-307). The whole body sits inside the
`try`: a failed `paymentIntents.retrieve`, a missing metadata object, a
null db, an empty `refunds.data` (indexing `[0].id` throws while building
the write's argument) and a rejected write are all caught and logged.
`provider` maps intent ids to the provider's intent objects. -/
def handleRefund (env : Env) (f : Faults)
    (provider : List (String × PaymentIntentObj)) (c : ChargeObj)
    (s : Store) : Store × List ProviderCall × HandlerOutcome :=
  let calls := [ProviderCall.intentRetrieve c.payment_intent]
  match alistLookup c.payment_intent provider with
  | none => (s, calls, .returned true)
  | some p =>
    match p.metadata with
    | none => (s, calls, .returned true)
    | some md =>
      if ¬ env.dbPresent then (s, calls, .returned true)
      else
        match c.refunds.head? with
        | none => (s, calls, .returned true)
        | some r =>
          if f.duesWriteFails then (s, calls, .returned true)
          else
            let dues1 := alistUpsert (md.organizationId, md.memberId)
              (refundDuesMerge env.today md c r.id) s.dues
            ({ s with dues := dues1 }, calls, .returned false)

/-! ## The webhook route `POST /api/webhooks/stripe` -/

/-- The webhook route's observable effect: the store after the request,
the HTTP status, whether the body was the `{received:true}`
acknowledgment, whether one of the three handlers was invoked, whether a
handler's internal catch logged an error, and the provider calls made. -/
structure WebhookResult where
  store : Store
  status : Nat
  acknowledged : Bool
  handlerRan : Bool
  errorLogged : Bool
  calls : List ProviderCall
deriving DecidableEq, Repr

/-- Turn a handler's result into the route's response (source lines
197-216): a handler exception reaches the route-level catch and answers
500; a normal return answers 200 `{received:true}`. -/
def finishWebhook (s : Store) (calls : List ProviderCall) (ran : Bool) :
    HandlerOutcome → WebhookResult
  | .threw => ⟨s, 500, false, ran, false, calls⟩
  | .returned logged => ⟨s, 200, true, ran, logged, calls⟩

/-- `POST /api/webhooks/stripe` (source lines 186-217).
`signatureValid` abstracts `stripe.webhooks.constructEvent` against the
shared signing secret: when it throws, the route answers 400 before any
dispatch; otherwise the event is dispatched by type, unrecognized types
are only logged. -/
def webhookRoute (env : Env) (f : Faults)
    (provider : List (String × PaymentIntentObj)) (signatureValid : Bool)
    (event : StripeEvent) (s : Store) : WebhookResult :=
  if ¬ signatureValid then ⟨s, 400, false, false, false, []⟩
  else
    match event with
    | .paymentIntentSucceeded p =>
      let r := handlePaymentSuccess env f p s
      finishWebhook r.1 r.2.1 true r.2.2
    | .paymentIntentFailed p =>
      let r := handlePaymentFailure env f p s
      finishWebhook r.1 r.2.1 true r.2.2
    | .chargeRefunded c =>
      let r := handleRefund env f provider c s
      finishWebhook r.1 r.2.1 true r.2.2
    | .other _ => ⟨s, 200, true, false, false, []⟩

/-! ## Synchronous endpoints -/

/-- `Math.round` on a rational: round half away from zero upward, as JS
does for the amounts handled here (`Math.round(x) = floor(x + 0.5)`). -/
def jsRound (q : Rat) : Int := ⌊q + 1/2⌋

/-- The observable effect of a synchronous endpoint: HTTP status, store
after the request, provider calls made (in order). -/
structure EndpointResult where
  status : Nat
  store : Store
  calls : List ProviderCall
deriving DecidableEq, Repr

/-- The shared look-up-then-create customer resolution (source lines
120-136, 393-409, 486-502): list Stripe customers by email, take the
first if any, otherwise create one tagged with member and organization
ids. Returns the resolved customer id and the provider calls made. -/
def resolveCustomer (env : Env) (m : MemberData) (memberId organizationId : String) :
    String × List ProviderCall :=
  match alistLookup m.email env.stripeCustomersByEmail with
  | some cid => (cid, [.customersList m.email])
  | none =>
    (env.freshCustomerId,
      [.customersList m.email,
        .customersCreate m.email m.name [("memberId", memberId), ("organizationId", organizationId)]])

/-- Request body of `POST /api/payments/create-payment-intent`. -/
structure IntentBody where
  amount : Nat
  currency : String
  memberId : String
  organizationId : String
  description : String
deriving DecidableEq, Repr

/-- `validatePaymentIntent` (source lines 58-64): integer amount of at
least 50 cents, currency `usd`, non-empty ids and description. -/
def intentBodyValid (b : IntentBody) : Bool :=
  decide (50 ≤ b.amount) && decide (b.currency = "usd") && !(b.memberId == "")
    && !(b.organizationId == "") && !(b.description == "")

/-- The Stripe payment-intent metadata attached at dues issuance (source
lines 144-149). -/
def duesIntentMetadata (b : IntentBody) (memberName : String) : List (String × String) :=
  [("memberId", b.memberId), ("organizationId", b.organizationId),
    ("paymentType", "dues"), ("memberName", memberName)]

/-- `POST /api/payments/create-payment-intent` (source lines 86-183):
validate, resolve the member (404 when the db is live and the member is
absent; demo data when the db is down), resolve the customer, create the
intent with the identifying metadata, and mirror it into
`payment_intents` when the db is live. -/
def createPaymentIntent (env : Env) (s : Store) (b : IntentBody) : EndpointResult :=
  if intentBodyValid b then
    let memberData? : Option MemberData :=
      if env.dbPresent then alistLookup (b.organizationId, b.memberId) s.members
      else some ⟨"Demo Member", "demo@example.com"⟩
    match memberData? with
    | none => ⟨404, s, []⟩
    | some memberData =>
      let rc := resolveCustomer env memberData b.memberId b.organizationId
      let params : IntentCreateParams :=
        { amount := (b.amount : Int)
          currency := b.currency
          customer := rc.1
          description := b.description
          metadata := duesIntentMetadata b memberData.name }
      let rec1 : PaymentIntentRecord :=
        { paymentIntentId := env.freshIntentId
          amount := b.amount
          currency := b.currency
          status := env.intentInitialStatus
          description := b.description
          createdAt := env.now
          memberId := b.memberId
          memberName := memberData.name }
      let s' :=
        if env.dbPresent then
          { s with paymentIntents := s.paymentIntents ++ [((b.organizationId, b.memberId), rec1)] }
        else s
      ⟨200, s', rc.2 ++ [.intentCreate params]⟩
  else ⟨400, s, []⟩

/-- Request body of `POST /api/expenses/submit`. -/
structure ExpenseBody where
  submitterName : String
  amount : Rat
  category : String
  description : String
  memberId : String
  organizationId : String
  receiptUrl : Option String
deriving DecidableEq, Repr

/-- The submit-expense validators (source lines 311-316). -/
def expenseBodyValid (b : ExpenseBody) : Bool :=
  !(b.submitterName == "") && decide ((1 : Rat)/100 ≤ b.amount) && !(b.category == "")
    && !(b.description == "") && !(b.memberId == "") && !(b.organizationId == "")

/-- The Stripe payment-intent metadata attached at expense submission
(source lines 417-424). -/
def expenseIntentMetadata (env : Env) (b : ExpenseBody) (memberName : String) :
    List (String × String) :=
  [("memberId", b.memberId), ("organizationId", b.organizationId),
    ("paymentType", "expense"), ("memberName", memberName),
    ("category", b.category), ("expenseId", env.freshExpenseId)]

/-- `POST /api/expenses/submit` (source lines 310-457): validate, append
the Pending expense record (db live), resolve the member with the
submitter's name as fallback, then — only when Stripe is configured, else
a demo response with no provider call — resolve the customer and create a
payment intent for the rounded minor-unit amount. -/
def submitExpense (env : Env) (s : Store) (b : ExpenseBody) : EndpointResult :=
  if expenseBodyValid b then
    let expR : ExpenseRecord :=
      { submitterName := some b.submitterName
        amount := some b.amount
        category := some b.category
        description := some b.description
        date := some env.today
        status := some "Pending"
        receiptUrl := some (b.receiptUrl.getD "")
        submittedAt := some env.nowIso
        memberId := some b.memberId
        organizationId := some b.organizationId }
    let s1 :=
      if env.dbPresent then
        { s with expenses := s.expenses ++ [((b.organizationId, b.memberId, env.freshDocId), expR)] }
      else s
    let fallback : MemberData := ⟨b.submitterName, "demo@example.com"⟩
    let memberData : MemberData :=
      if env.dbPresent then (alistLookup (b.organizationId, b.memberId) s.members).getD fallback
      else fallback
    if env.stripeConfigured then
      let rc := resolveCustomer env memberData b.memberId b.organizationId
      let params : IntentCreateParams :=
        { amount := jsRound (b.amount * 100)
          currency := "usd"
          customer := rc.1
          description := "Expense: " ++ b.description
          metadata := expenseIntentMetadata env b memberData.name }
      ⟨200, s1, rc.2 ++ [.intentCreate params]⟩
    else ⟨200, s1, []⟩
  else ⟨400, s, []⟩

/-- Request body of `POST /api/expenses/process-reimbursement`.
`expenseId` is read from the raw body without validation, hence
optional. -/
structure ReimbursementBody where
  amount : Rat
  memberId : String
  organizationId : String
  description : String
  receiptUrl : Option String
  expenseId : Option String
deriving DecidableEq, Repr

/-- `validateExpenseReimbursement` (source lines 66-72); `isURL`
abstracts the validator library's URL check. -/
def reimbursementBodyValid (isURL : String → Bool) (b : ReimbursementBody) : Bool :=
  decide ((1 : Rat)/100 ≤ b.amount) && !(b.memberId == "") && !(b.organizationId == "")
    && !(b.description == "") && b.receiptUrl.all isURL

/-- The merge write on the expense document at reimbursement
(source lines 524-529). -/
def reimbursementMerge (env : Env) (b : ReimbursementBody)
    (old : Option ExpenseRecord) : ExpenseRecord :=
  let base := old.getD {}
  { base with
    status := some "Reimbursed"
    reimbursementDate := some env.today
    transferId := some env.freshTransferId
    receiptUrl := some (b.receiptUrl.getD "") }

/-- `POST /api/expenses/process-reimbursement` (source lines 460-544):
validate, look the member up (404 before any provider call when absent;
a null db makes the unguarded `db.collection` throw, 500), resolve the
customer, create the transfer, then merge the expense document by id
(an absent `expenseId` makes `.doc(undefined)` throw after the transfer,
500 with no store write). -/
def processReimbursement (isURL : String → Bool) (env : Env) (s : Store)
    (b : ReimbursementBody) : EndpointResult :=
  if reimbursementBodyValid isURL b then
    if ¬ env.dbPresent then ⟨500, s, []⟩
    else
      match alistLookup (b.organizationId, b.memberId) s.members with
      | none => ⟨404, s, []⟩
      | some memberData =>
        let rc := resolveCustomer env memberData b.memberId b.organizationId
        let tparams : TransferCreateParams :=
          { amount := jsRound (b.amount * 100)
            currency := "usd"
            destination := rc.1
            description := "Reimbursement: " ++ b.description
            metadata := [("memberId", b.memberId), ("organizationId", b.organizationId),
              ("memberName", memberData.name), ("expenseType", "reimbursement")] }
        let calls := rc.2 ++ [.transferCreate tparams]
        match b.expenseId with
        | none => ⟨500, s, calls⟩
        | some eid =>
          let exps := alistUpsert (b.organizationId, b.memberId, eid)
            (reimbursementMerge env b) s.expenses
          ⟨200, { s with expenses := exps }, calls⟩
  else ⟨400, s, []⟩

/-! ## `GET /api/payments/history/:organizationId/:memberId` -/

/-- The descending-by-`createdAt` order Firestore's
`orderBy('createdAt', 'desc')` returns documents in. -/
def histLE (a b : PaymentIntentRecord) : Prop := b.createdAt ≤ a.createdAt

instance : DecidableRel histLE := fun a b => Nat.decLe b.createdAt a.createdAt

/-- Insert one record into a descending-sorted list. -/
def insertDesc (p : PaymentIntentRecord) :
    List PaymentIntentRecord → List PaymentIntentRecord
  | [] => [p]
  | q :: rest =>
    if q.createdAt ≤ p.createdAt then p :: q :: rest else q :: insertDesc p rest

/-- Sort records by creation time, newest first. -/
def sortDesc : List PaymentIntentRecord → List PaymentIntentRecord
  | [] => []
  | p :: rest => insertDesc p (sortDesc rest)

/-- The member's `payment_intents` documents, as stored. -/
def memberIntentRecords (s : Store) (organizationId memberId : String) :
    List PaymentIntentRecord :=
  (s.paymentIntents.filter (fun kv => kv.1 = (organizationId, memberId))).map Prod.snd

/-- The history endpoint's observable response. -/
structure HistoryResult where
  status : Nat
  payments : List PaymentIntentRecord
deriving DecidableEq, Repr

/-- `GET /api/payments/history/:organizationId/:memberId` (source lines
547-573): read the member's `payment_intents` collection ordered by
`createdAt` descending and return it under 200; a null db makes the read
throw, caught into a 500. -/
def paymentHistory (env : Env) (s : Store) (organizationId memberId : String) :
    HistoryResult :=
  if ¬ env.dbPresent then ⟨500, []⟩
  else ⟨200, sortDesc (memberIntentRecords s organizationId memberId)⟩

/-! ## Helper lemmas -/

theorem insertDesc_perm (p : PaymentIntentRecord) (l : List PaymentIntentRecord) :
    (insertDesc p l).Perm (p :: l) := by
  induction l with
  | nil => exact List.Perm.refl _
  | cons q rest ih =>
    by_cases hq : q.createdAt ≤ p.createdAt
    · simp [insertDesc, hq]
    · rw [insertDesc, if_neg hq]
      exact (ih.cons q).trans (List.Perm.swap p q rest)

theorem sorted_insertDesc (p : PaymentIntentRecord) (l : List PaymentIntentRecord)
    (h : l.Sorted histLE) : (insertDesc p l).Sorted histLE := by
  induction l with
  | nil => simp [insertDesc]
  | cons q rest ih =>
    rw [List.sorted_cons] at h
    by_cases hq : q.createdAt ≤ p.createdAt
    · rw [insertDesc, if_pos hq, List.sorted_cons]
      refine ⟨?_, ?_⟩
      · intro b hb
        rcases List.mem_cons.mp hb with rfl | hb'
        · exact hq
        · exact le_trans (h.1 b hb') hq
      · rw [List.sorted_cons]; exact h
    · rw [insertDesc, if_neg hq, List.sorted_cons]
      refine ⟨?_, ih h.2⟩
      intro b hb
      have hb2 : b ∈ p :: rest := (insertDesc_perm p rest).mem_iff.mp hb
      rcases List.mem_cons.mp hb2 with rfl | hb'
      · exact le_of_not_le hq
      · exact h.1 b hb'

theorem sortDesc_perm (l : List PaymentIntentRecord) : (sortDesc l).Perm l := by
  induction l with
  | nil => exact List.Perm.refl _
  | cons p rest ih => exact (insertDesc_perm p (sortDesc rest)).trans (ih.cons p)

theorem sortDesc_sorted (l : List PaymentIntentRecord) : (sortDesc l).Sorted histLE := by
  induction l with
  | nil => simp [sortDesc]
  | cons p rest ih => exact sorted_insertDesc p _ ih

theorem successDuesMerge_idem (t : String) (md : Metadata) (p : PaymentIntentObj)
    (x : Option DuesRecord) :
    successDuesMerge t md p (some (successDuesMerge t md p x)) = successDuesMerge t md p x := by
  cases x <;> rfl

theorem failureDuesMerge_idem (t : String) (md : Metadata) (p : PaymentIntentObj)
    (x : Option DuesRecord) :
    failureDuesMerge t md p (some (failureDuesMerge t md p x)) = failureDuesMerge t md p x := by
  cases x <;> rfl

/-- The store a fault-free `handlePaymentSuccess` leaves behind: the dues
document merged, plus an appended donation when the intent is tagged as a
donation. -/
def successState (env : Env) (md : Metadata) (p : PaymentIntentObj) (s : Store) : Store :=
  let dues1 := alistUpsert (md.organizationId, md.memberId)
    (successDuesMerge env.today md p) s.dues
  let s1 := { s with dues := dues1 }
  if md.paymentType = "donation" then
    let dons1 := s1.donations ++ [((md.organizationId, md.memberId), donationOf env.today md p)]
    { s1 with donations := dons1 }
  else s1

/-- The store a fault-free `handlePaymentFailure` leaves behind. -/
def failureState (env : Env) (md : Metadata) (p : PaymentIntentObj) (s : Store) : Store :=
  let dues1 := alistUpsert (md.organizationId, md.memberId)
    (failureDuesMerge env.today md p) s.dues
  { s with dues := dues1 }

theorem handlePaymentSuccess_ok (env : Env) (p : PaymentIntentObj) (md : Metadata)
    (s : Store) (hmd : p.metadata = some md) (hdb : env.dbPresent = true) :
    handlePaymentSuccess env noFaults p s = (successState env md p s, [], .returned false) := by
  unfold handlePaymentSuccess successState
  rw [hmd]
  by_cases hdon : md.paymentType = "donation" <;> simp [hdb, noFaults, hdon]

theorem successState_dues (env : Env) (md : Metadata) (p : PaymentIntentObj) (s : Store) :
    (successState env md p s).dues =
      alistUpsert (md.organizationId, md.memberId) (successDuesMerge env.today md p) s.dues := by
  unfold successState
  by_cases hdon : md.paymentType = "donation" <;> simp [hdon]

theorem successState_donations (env : Env) (md : Metadata) (p : PaymentIntentObj) (s : Store) :
    (successState env md p s).donations =
      if md.paymentType = "donation"
      then s.donations ++ [((md.organizationId, md.memberId), donationOf env.today md p)]
      else s.donations := by
  unfold successState
  by_cases hdon : md.paymentType = "donation" <;> simp [hdon]

theorem handlePaymentFailure_ok (env : Env) (p : PaymentIntentObj) (md : Metadata)
    (s : Store) (hmd : p.metadata = some md) (hdb : env.dbPresent = true) :
    handlePaymentFailure env noFaults p s = (failureState env md p s, [], .returned false) := by
  unfold handlePaymentFailure failureState
  rw [hmd]
  simp [hdb, noFaults]

theorem webhookRoute_succeeded_ok (env : Env) (provider : List (String × PaymentIntentObj))
    (p : PaymentIntentObj) (md : Metadata) (s : Store)
    (hmd : p.metadata = some md) (hdb : env.dbPresent = true) :
    webhookRoute env noFaults provider true (.paymentIntentSucceeded p) s =
      ⟨successState env md p s, 200, true, true, false, []⟩ := by
  have h := handlePaymentSuccess_ok env p md s hmd hdb
  simp [webhookRoute, h, finishWebhook]

theorem webhookRoute_failed_ok (env : Env) (provider : List (String × PaymentIntentObj))
    (p : PaymentIntentObj) (md : Metadata) (s : Store)
    (hmd : p.metadata = some md) (hdb : env.dbPresent = true) :
    webhookRoute env noFaults provider true (.paymentIntentFailed p) s =
      ⟨failureState env md p s, 200, true, true, false, []⟩ := by
  have h := handlePaymentFailure_ok env p md s hmd hdb
  simp [webhookRoute, h, finishWebhook]

/-- The store a fault-free `handleRefund` leaves behind once the intent
and first refund entry resolved. -/
def refundState (env : Env) (md : Metadata) (c : ChargeObj) (rid : String) (s : Store) : Store :=
  let dues1 := alistUpsert (md.organizationId, md.memberId)
    (refundDuesMerge env.today md c rid) s.dues
  { s with dues := dues1 }

theorem handleRefund_ok (env : Env) (provider : List (String × PaymentIntentObj))
    (c : ChargeObj) (p : PaymentIntentObj) (md : Metadata) (r0 : RefundObj) (s : Store)
    (hp : alistLookup c.payment_intent provider = some p)
    (hmd : p.metadata = some md) (hr : c.refunds.head? = some r0)
    (hdb : env.dbPresent = true) :
    handleRefund env noFaults provider c s =
      (refundState env md c r0.id s, [.intentRetrieve c.payment_intent], .returned false) := by
  unfold handleRefund refundState
  rw [hp]
  simp [hmd, hr, hdb, noFaults]

theorem webhookRoute_refunded_ok (env : Env) (provider : List (String × PaymentIntentObj))
    (c : ChargeObj) (p : PaymentIntentObj) (md : Metadata) (r0 : RefundObj) (s : Store)
    (hp : alistLookup c.payment_intent provider = some p)
    (hmd : p.metadata = some md) (hr : c.refunds.head? = some r0)
    (hdb : env.dbPresent = true) :
    webhookRoute env noFaults provider true (.chargeRefunded c) s =
      ⟨refundState env md c r0.id s, 200, true, true, false,
        [.intentRetrieve c.payment_intent]⟩ := by
  have h := handleRefund_ok env provider c p md r0 s hp hmd hr hdb
  simp [webhookRoute, h, finishWebhook]

/-- With the dues write rejecting, `handleRefund` returns normally with
its internal catch fired and the store untouched, on every path. -/
theorem handleRefund_store_failure (env : Env)
    (provider : List (String × PaymentIntentObj)) (c : ChargeObj) (s : Store)
    (hdb : env.dbPresent = true) :
    handleRefund env ⟨true, true⟩ provider c s =
      (s, [.intentRetrieve c.payment_intent], .returned true) := by
  unfold handleRefund
  rcases h1 : alistLookup c.payment_intent provider with _ | p
  · simp [h1]
  · rcases h2 : p.metadata with _ | md
    · simp [h1, h2]
    · rcases h3 : c.refunds.head? with _ | r
      · simp [h1, h2, h3, hdb]
      · simp [h1, h2, h3, hdb]

/-! ## Claim theorems -/

/-- C1: a verified `payment_intent.succeeded` event whose payload carries
metadata upserts the member's dues record with the minor-to-major
converted amount (`amount / 100`), status `Paid`, `paidDate` = the
processing date, and the provider intent and charge ids; a donation
record is appended exactly when the payload's `paymentType` is
`donation`. -/
theorem intentSucceeded_upserts_paid_dues (env : Env)
    (provider : List (String × PaymentIntentObj)) (p : PaymentIntentObj)
    (md : Metadata) (s : Store) (hmd : p.metadata = some md)
    (hdb : env.dbPresent = true) :
    let r := webhookRoute env noFaults provider true (.paymentIntentSucceeded p) s
    r.status = 200 ∧
    (∃ d, alistLookup (md.organizationId, md.memberId) r.store.dues = some d ∧
      d.amount = (p.amount : Rat) / 100 ∧ d.status = "Paid" ∧
      d.paidDate = some env.today ∧ d.paymentIntentId = some p.id ∧
      d.stripeChargeId = some p.latest_charge ∧ d.memberName = md.memberName) ∧
    r.store.donations =
      (if md.paymentType = "donation"
        then s.donations ++ [((md.organizationId, md.memberId), donationOf env.today md p)]
        else s.donations) := by
  rw [webhookRoute_succeeded_ok env provider p md s hmd hdb]
  refine ⟨rfl, ?_, ?_⟩
  · rw [successState_dues, alistLookup_upsert_self]
    exact ⟨_, rfl, rfl, rfl, rfl, rfl, rfl, rfl⟩
  · exact successState_donations env md p s

/-- C2: a webhook request failing signature verification is answered 400
with no handler invoked, no provider call, and no record-store
mutation. -/
theorem webhook_bad_signature_rejected_before_dispatch (env : Env) (f : Faults)
    (provider : List (String × PaymentIntentObj)) (event : StripeEvent) (s : Store) :
    webhookRoute env f provider false event s = ⟨s, 400, false, false, false, []⟩ := by
  rfl

/-- C3: re-delivering the same `payment_intent.succeeded` event (processed
on the same date) leaves the dues collection exactly as after the first
delivery, but appends a second, duplicate donation record when the
payload's `paymentType` is `donation`. -/
theorem redelivered_succeeded_idempotent_dues_duplicated_donation (env : Env)
    (provider : List (String × PaymentIntentObj)) (p : PaymentIntentObj)
    (md : Metadata) (s : Store) (hmd : p.metadata = some md)
    (hdb : env.dbPresent = true) :
    let r1 := webhookRoute env noFaults provider true (.paymentIntentSucceeded p) s
    let r2 := webhookRoute env noFaults provider true (.paymentIntentSucceeded p) r1.store
    r2.store.dues = r1.store.dues ∧
    (md.paymentType = "donation" →
      r2.store.donations = s.donations ++
        [((md.organizationId, md.memberId), donationOf env.today md p),
          ((md.organizationId, md.memberId), donationOf env.today md p)]) ∧
    (md.paymentType ≠ "donation" → r2.store.donations = s.donations) := by
  simp only [webhookRoute_succeeded_ok env provider p md s hmd hdb,
    webhookRoute_succeeded_ok env provider p md (successState env md p s) hmd hdb]
  refine ⟨?_, ?_, ?_⟩
  · rw [successState_dues, successState_dues,
      alistUpsert_idem _ _ (successDuesMerge_idem env.today md p)]
  · intro hdon
    simp [successState_donations, hdon]
  · intro hdon
    simp [successState_donations, hdon]

/-- Concrete inputs shared by the witness and counterexample theorems. -/
def envW : Env :=
  { dbPresent := true, stripeConfigured := true,
    stripeCustomersByEmail := [], freshCustomerId := "cus_new",
    freshIntentId := "pi_9", clientSecret := "sec_1",
    intentInitialStatus := "requires_payment_method",
    now := 7, nowIso := "2026-10-12T00:00:00.000Z", today := "2026-10-12",
    freshDocId := "doc_1", freshExpenseId := "exp_1", freshTransferId := "tr_1" }

/-- Concrete metadata with `paymentType` = `dues`. -/
def mdW : Metadata := ⟨"m1", "o1", "dues", "Test"⟩

/-- Concrete metadata with `paymentType` = `donation`. -/
def mdDon : Metadata := ⟨"m1", "o1", "donation", "Test"⟩

/-- Concrete succeeded/failed intent payload, amount 15000 cents. -/
def piW : PaymentIntentObj := ⟨"pi_1", 15000, "ch_1", "Dues Payment", some mdW, none⟩

/-- Concrete donation-tagged intent payload. -/
def piDon : PaymentIntentObj := ⟨"pi_2", 2500, "ch_2", "Campaign", some mdDon, none⟩

/-- Concrete intent payload with no metadata object at all. -/
def piNoMd : PaymentIntentObj := ⟨"pi_3", 1000, "ch_3", "X", none, none⟩

/-- Concrete refunded charge whose intent is `piW`. -/
def chW : ChargeObj := ⟨"ch_1", "pi_1", 15000, [⟨"re_1"⟩]⟩

/-- C4 counterexample: starting from an empty store, a verified
`payment_intent.succeeded` leaves the member's dues status `Paid`, and a
subsequently delivered `payment_intent.payment_failed` for the same
member overwrites it to `Failed` — the status does leave the terminal
state `Paid`, so the forward-only transition claim fails on the code. -/
theorem paid_status_overwritten_counterexample :
    (alistLookup ("o1", "m1")
      (webhookRoute envW noFaults [] true (.paymentIntentSucceeded piW)
        emptyStore).store.dues).map DuesRecord.status = some "Paid" ∧
    (alistLookup ("o1", "m1")
      (webhookRoute envW noFaults [] true (.paymentIntentFailed piW)
        (webhookRoute envW noFaults [] true (.paymentIntentSucceeded piW)
          emptyStore).store).store.dues).map DuesRecord.status = some "Failed" :=
  ⟨by decide, by decide⟩

/-- C4 amended: the handlers gate on nothing — a verified
`payment_intent.payment_failed` event sets the member's dues status to
`Failed` whatever the current status (in particular moving a `Paid`
record to `Failed`); only re-delivery of the same event on the same date
is a state no-op for the dues record. Terminal-state immutability is not
enforced. -/
theorem status_transitions_are_unconditional (env : Env)
    (provider : List (String × PaymentIntentObj)) (p : PaymentIntentObj)
    (md : Metadata) (s : Store) (hmd : p.metadata = some md)
    (hdb : env.dbPresent = true) :
    let r := webhookRoute env noFaults provider true (.paymentIntentFailed p) s
    (∃ d, alistLookup (md.organizationId, md.memberId) r.store.dues = some d ∧
      d.status = "Failed") ∧
    (webhookRoute env noFaults provider true (.paymentIntentFailed p)
      r.store).store.dues = r.store.dues := by
  simp only [webhookRoute_failed_ok env provider p md s hmd hdb,
    webhookRoute_failed_ok env provider p md (failureState env md p s) hmd hdb]
  constructor
  · rw [show (failureState env md p s).dues = alistUpsert (md.organizationId, md.memberId)
      (failureDuesMerge env.today md p) s.dues from rfl, alistLookup_upsert_self]
    exact ⟨_, rfl, rfl⟩
  · exact alistUpsert_idem _ _ (failureDuesMerge_idem env.today md p) s.dues

/-- C5: with the record-store writes rejecting, each of the three handlers
catches and logs the failure internally, the route still acknowledges with
200 `{received:true}`, and the store is left exactly as it was — the
update is silently lost. -/
theorem store_failure_swallowed_still_acknowledged (env : Env)
    (provider : List (String × PaymentIntentObj)) (p : PaymentIntentObj)
    (c : ChargeObj) (md : Metadata) (s : Store)
    (hmd : p.metadata = some md) (hdb : env.dbPresent = true) :
    webhookRoute env ⟨true, true⟩ provider true (.paymentIntentSucceeded p) s =
      ⟨s, 200, true, true, true, []⟩ ∧
    webhookRoute env ⟨true, true⟩ provider true (.paymentIntentFailed p) s =
      ⟨s, 200, true, true, true, []⟩ ∧
    webhookRoute env ⟨true, true⟩ provider true (.chargeRefunded c) s =
      ⟨s, 200, true, true, true, [.intentRetrieve c.payment_intent]⟩ := by
  refine ⟨?_, ?_, ?_⟩
  · simp [webhookRoute, handlePaymentSuccess, hmd, hdb, finishWebhook]
  · simp [webhookRoute, handlePaymentFailure, hmd, hdb, finishWebhook]
  · have h := handleRefund_store_failure env provider c s hdb
    simp [webhookRoute, h, finishWebhook]

/-- C6: a verified `charge.refunded` event re-fetches the owning payment
intent from the provider, and upserts the resolved member's dues record
with the refunded amount divided by 100, status `Refunded`, `refundDate`
= the processing date, and the id of the first refund entry. -/
theorem chargeRefunded_upserts_refunded_dues (env : Env)
    (provider : List (String × PaymentIntentObj)) (c : ChargeObj)
    (p : PaymentIntentObj) (md : Metadata) (r0 : RefundObj) (s : Store)
    (hp : alistLookup c.payment_intent provider = some p)
    (hmd : p.metadata = some md) (hr : c.refunds.head? = some r0)
    (hdb : env.dbPresent = true) :
    let r := webhookRoute env noFaults provider true (.chargeRefunded c) s
    r.status = 200 ∧ r.calls = [ProviderCall.intentRetrieve c.payment_intent] ∧
    (∃ d, alistLookup (md.organizationId, md.memberId) r.store.dues = some d ∧
      d.amount = (c.amount_refunded : Rat) / 100 ∧ d.status = "Refunded" ∧
      d.refundDate = some env.today ∧ d.refundId = some r0.id ∧
      d.memberName = md.memberName) := by
  rw [webhookRoute_refunded_ok env provider c p md r0 s hp hmd hr hdb]
  refine ⟨rfl, rfl, ?_⟩
  rw [show (refundState env md c r0.id s).dues = alistUpsert (md.organizationId, md.memberId)
    (refundDuesMerge env.today md c r0.id) s.dues from rfl, alistLookup_upsert_self]
  exact ⟨_, rfl, rfl, rfl, rfl, rfl, rfl⟩

/-- `resolveCustomer` only lists or creates customers; it never creates a
payment intent. -/
theorem intentCreate_not_mem_resolveCustomer (env : Env) (m : MemberData)
    (mid oid : String) (params : IntentCreateParams) :
    ProviderCall.intentCreate params ∉ (resolveCustomer env m mid oid).2 := by
  unfold resolveCustomer
  cases alistLookup m.email env.stripeCustomersByEmail <;> simp

/-- C7: any payment intent created by the dues-issuance endpoint or by
expense submission carries provider-side metadata with the member id, the
organization id, the payment type (`dues` resp. `expense`) and a member
name — the join key Event Reconciliation relies on. -/
theorem created_intents_carry_join_metadata (env : Env) (s : Store)
    (b : IntentBody) (be : ExpenseBody) (params : IntentCreateParams) :
    (ProviderCall.intentCreate params ∈ (createPaymentIntent env s b).calls →
      alistLookup "memberId" params.metadata = some b.memberId ∧
      alistLookup "organizationId" params.metadata = some b.organizationId ∧
      alistLookup "paymentType" params.metadata = some "dues" ∧
      (alistLookup "memberName" params.metadata).isSome = true) ∧
    (ProviderCall.intentCreate params ∈ (submitExpense env s be).calls →
      alistLookup "memberId" params.metadata = some be.memberId ∧
      alistLookup "organizationId" params.metadata = some be.organizationId ∧
      alistLookup "paymentType" params.metadata = some "expense" ∧
      (alistLookup "memberName" params.metadata).isSome = true) := by
  constructor
  · intro hm
    by_cases hv : intentBodyValid b
    · by_cases hdbp : env.dbPresent
      · rcases hml : alistLookup (b.organizationId, b.memberId) s.members with _ | m
        · simp [createPaymentIntent, hv, hdbp, hml] at hm
        · simp [createPaymentIntent, hv, hdbp, hml] at hm
          rcases hm with h | h
          · exact absurd h
              (intentCreate_not_mem_resolveCustomer env m b.memberId b.organizationId params)
          · subst h
            exact ⟨rfl, rfl, rfl, rfl⟩
      · simp [createPaymentIntent, hv, hdbp] at hm
        rcases hm with h | h
        · exact absurd h
            (intentCreate_not_mem_resolveCustomer env _ b.memberId b.organizationId params)
        · subst h
          exact ⟨rfl, rfl, rfl, rfl⟩
    · simp [createPaymentIntent, hv] at hm
  · intro hm
    by_cases hv : expenseBodyValid be
    · by_cases hst : env.stripeConfigured
      · by_cases hdbp : env.dbPresent
        · simp [submitExpense, hv, hst, hdbp] at hm
          rcases hm with h | h
          · exact absurd h
              (intentCreate_not_mem_resolveCustomer env _ be.memberId be.organizationId params)
          · subst h
            exact ⟨rfl, rfl, rfl, rfl⟩
        · simp [submitExpense, hv, hst, hdbp] at hm
          rcases hm with h | h
          · exact absurd h
              (intentCreate_not_mem_resolveCustomer env _ be.memberId be.organizationId params)
          · subst h
            exact ⟨rfl, rfl, rfl, rfl⟩
      · simp [submitExpense, hv, hst] at hm
    · simp [submitExpense, hv] at hm

/-- C8: a reimbursement request passing validation whose member does not
resolve is answered 404 with no provider call of any kind and the store
untouched. -/
theorem reimbursement_missing_member_404_no_calls (isURL : String → Bool)
    (env : Env) (s : Store) (b : ReimbursementBody)
    (hval : reimbursementBodyValid isURL b = true)
    (hdb : env.dbPresent = true)
    (hmem : alistLookup (b.organizationId, b.memberId) s.members = none) :
    processReimbursement isURL env s b = ⟨404, s, []⟩ := by
  unfold processReimbursement
  simp [hval, hdb, hmem]

/-- C9: the history endpoint answers 200 with exactly the member's
payment-intent records ordered by creation time descending; in
particular a member with zero records gets a 200 with the empty list. -/
theorem history_200_sorted_desc (env : Env) (s : Store)
    (organizationId memberId : String) (hdb : env.dbPresent = true) :
    let r := paymentHistory env s organizationId memberId
    r.status = 200 ∧
    r.payments.Perm (memberIntentRecords s organizationId memberId) ∧
    r.payments.Sorted histLE ∧
    (memberIntentRecords s organizationId memberId = [] → r.payments = []) := by
  have h : paymentHistory env s organizationId memberId =
      ⟨200, sortDesc (memberIntentRecords s organizationId memberId)⟩ := by
    unfold paymentHistory
    simp [hdb]
  rw [h]
  exact ⟨rfl, sortDesc_perm _, sortDesc_sorted _, fun he => by rw [he]; rfl⟩

/-- C10: a signature-verified `payment_intent.succeeded` or
`payment_intent.payment_failed` event whose payload has no metadata object
makes the handler throw while destructuring, before its internal try
block; the route-level catch answers 500 (no `{received:true}`) and no
record is written. -/
theorem missing_metadata_escapes_to_route_catch (env : Env) (f : Faults)
    (provider : List (String × PaymentIntentObj)) (p : PaymentIntentObj)
    (s : Store) (hmd : p.metadata = none) :
    webhookRoute env f provider true (.paymentIntentSucceeded p) s =
      ⟨s, 500, false, true, false, []⟩ ∧
    webhookRoute env f provider true (.paymentIntentFailed p) s =
      ⟨s, 500, false, true, false, []⟩ := by
  constructor <;>
    simp [webhookRoute, handlePaymentSuccess, handlePaymentFailure, hmd, finishWebhook]

/-! ## Concrete instances for the witness theorems -/

/-- A store holding one member `m1` of organization `o1`. -/
def storeW : Store := { emptyStore with members := [(("o1", "m1"), ⟨"Test", "t@example.com"⟩)] }

/-- Concrete dues-issuance request body. -/
def ibW : IntentBody := ⟨15000, "usd", "m1", "o1", "Dues Payment"⟩

/-- Concrete expense-submission request body. -/
def ebW : ExpenseBody := ⟨"Test", 20, "Travel", "Taxi", "m1", "o1", none⟩

/-- Concrete reimbursement request body for a member id that is not in
`storeW`. -/
def rbW : ReimbursementBody := ⟨20, "mX", "o1", "Taxi", none, some "e1"⟩

/-- The provider knowing `piW` under its intent id. -/
def providerW : List (String × PaymentIntentObj) := [("pi_1", piW)]

/-- The intent-creation parameters the dues endpoint sends for `ibW`. -/
def paramsDW : IntentCreateParams :=
  { amount := 15000, currency := "usd", customer := "cus_new",
    description := "Dues Payment", metadata := duesIntentMetadata ibW "Test" }

/-- The intent-creation parameters the expense endpoint sends for `ebW`. -/
def paramsEW : IntentCreateParams :=
  { amount := jsRound (ebW.amount * 100), currency := "usd", customer := "cus_new",
    description := "Expense: " ++ ebW.description,
    metadata := expenseIntentMetadata envW ebW "Test" }

/-- Records for the history-query witness, stored out of creation order. -/
def pirA : PaymentIntentRecord :=
  ⟨"pi_a", 1000, "usd", "requires_payment_method", "A", 1, "m1", "Test"⟩

/-- Second history record, created later than `pirA`. -/
def pirB : PaymentIntentRecord :=
  ⟨"pi_b", 2000, "usd", "requires_payment_method", "B", 5, "m1", "Test"⟩

/-- A store whose `payment_intents` collection is not creation-ordered. -/
def storeH : Store := { emptyStore with paymentIntents := [(("o1", "m1"), pirA), (("o1", "m1"), pirB)] }

/-! ## Witness theorems -/

/-- Witness for C1 at the spec's end-to-end inputs: metadata present, db
live, and the 15000-cent event leaves a `Paid` dues record of amount
150. -/
theorem intentSucceeded_upserts_paid_dues_witness :
    piW.metadata = some mdW ∧ envW.dbPresent = true ∧
    (let r := webhookRoute envW noFaults [] true (.paymentIntentSucceeded piW) emptyStore
     r.status = 200 ∧
     (∃ d, alistLookup (mdW.organizationId, mdW.memberId) r.store.dues = some d ∧
       d.amount = (piW.amount : Rat) / 100 ∧ d.status = "Paid" ∧
       d.paidDate = some envW.today ∧ d.paymentIntentId = some piW.id ∧
       d.stripeChargeId = some piW.latest_charge ∧ d.memberName = mdW.memberName) ∧
     r.store.donations =
       (if mdW.paymentType = "donation"
         then emptyStore.donations ++
           [((mdW.organizationId, mdW.memberId), donationOf envW.today mdW piW)]
         else emptyStore.donations)) ∧
    (alistLookup ("o1", "m1")
      (webhookRoute envW noFaults [] true (.paymentIntentSucceeded piW)
        emptyStore).store.dues).map DuesRecord.amount = some 150 := by
  refine ⟨rfl, rfl, intentSucceeded_upserts_paid_dues envW [] piW mdW emptyStore rfl rfl, ?_⟩
  simp [webhookRoute, handlePaymentSuccess, piW, mdW, envW, noFaults, finishWebhook,
    alistUpsert, alistLookup, successDuesMerge, emptyStore]
  norm_num

/-- Witness for C3 on a donation-tagged event: dues unchanged by the
second delivery, donation record duplicated. -/
theorem redelivered_succeeded_witness :
    piDon.metadata = some mdDon ∧ envW.dbPresent = true ∧
    (let r1 := webhookRoute envW noFaults [] true (.paymentIntentSucceeded piDon) emptyStore
     let r2 := webhookRoute envW noFaults [] true (.paymentIntentSucceeded piDon) r1.store
     r2.store.dues = r1.store.dues ∧
     (mdDon.paymentType = "donation" →
       r2.store.donations = emptyStore.donations ++
         [((mdDon.organizationId, mdDon.memberId), donationOf envW.today mdDon piDon),
           ((mdDon.organizationId, mdDon.memberId), donationOf envW.today mdDon piDon)]) ∧
     (mdDon.paymentType ≠ "donation" → r2.store.donations = emptyStore.donations)) :=
  ⟨rfl, rfl,
    redelivered_succeeded_idempotent_dues_duplicated_donation envW [] piDon mdDon emptyStore rfl rfl⟩

/-- Witness for the amended C4: a failed event stamps `Failed`
unconditionally and its redelivery is a dues no-op. -/
theorem status_transitions_are_unconditional_witness :
    piW.metadata = some mdW ∧ envW.dbPresent = true ∧
    (let r := webhookRoute envW noFaults [] true (.paymentIntentFailed piW) emptyStore
     (∃ d, alistLookup (mdW.organizationId, mdW.memberId) r.store.dues = some d ∧
       d.status = "Failed") ∧
     (webhookRoute envW noFaults [] true (.paymentIntentFailed piW)
       r.store).store.dues = r.store.dues) :=
  ⟨rfl, rfl, status_transitions_are_unconditional envW [] piW mdW emptyStore rfl rfl⟩

/-- Witness for C5: with every store write rejecting, all three event
types are still acknowledged 200 `{received:true}` and the store stays
empty. -/
theorem store_failure_swallowed_witness :
    piW.metadata = some mdW ∧ envW.dbPresent = true ∧
    (webhookRoute envW ⟨true, true⟩ [] true (.paymentIntentSucceeded piW) emptyStore =
      ⟨emptyStore, 200, true, true, true, []⟩ ∧
     webhookRoute envW ⟨true, true⟩ [] true (.paymentIntentFailed piW) emptyStore =
      ⟨emptyStore, 200, true, true, true, []⟩ ∧
     webhookRoute envW ⟨true, true⟩ [] true (.chargeRefunded chW) emptyStore =
      ⟨emptyStore, 200, true, true, true, [.intentRetrieve chW.payment_intent]⟩) :=
  ⟨rfl, rfl, store_failure_swallowed_still_acknowledged envW [] piW chW mdW emptyStore rfl rfl⟩

/-- Witness for C6: refunding `piW`'s charge leaves a `Refunded` dues
record carrying refund id `re_1` and the refund date. -/
theorem chargeRefunded_witness :
    alistLookup chW.payment_intent providerW = some piW ∧
    piW.metadata = some mdW ∧ chW.refunds.head? = some ⟨"re_1"⟩ ∧
    envW.dbPresent = true ∧
    (let r := webhookRoute envW noFaults providerW true (.chargeRefunded chW) emptyStore
     r.status = 200 ∧ r.calls = [ProviderCall.intentRetrieve chW.payment_intent] ∧
     (∃ d, alistLookup (mdW.organizationId, mdW.memberId) r.store.dues = some d ∧
       d.amount = (chW.amount_refunded : Rat) / 100 ∧ d.status = "Refunded" ∧
       d.refundDate = some envW.today ∧ d.refundId = some (RefundObj.mk "re_1").id ∧
       d.memberName = mdW.memberName)) :=
  ⟨rfl, rfl, rfl, rfl,
    chargeRefunded_upserts_refunded_dues envW providerW chW piW mdW ⟨"re_1"⟩ emptyStore rfl rfl rfl rfl⟩

/-- Witness for C7: both endpoints run on concrete inputs do create a
payment intent, and its metadata carries the four join-key fields. -/
theorem created_intents_carry_join_metadata_witness :
    (ProviderCall.intentCreate paramsDW ∈ (createPaymentIntent envW storeW ibW).calls ∧
      alistLookup "memberId" paramsDW.metadata = some ibW.memberId ∧
      alistLookup "organizationId" paramsDW.metadata = some ibW.organizationId ∧
      alistLookup "paymentType" paramsDW.metadata = some "dues" ∧
      (alistLookup "memberName" paramsDW.metadata).isSome = true) ∧
    (ProviderCall.intentCreate paramsEW ∈ (submitExpense envW storeW ebW).calls ∧
      alistLookup "memberId" paramsEW.metadata = some ebW.memberId ∧
      alistLookup "organizationId" paramsEW.metadata = some ebW.organizationId ∧
      alistLookup "paymentType" paramsEW.metadata = some "expense" ∧
      (alistLookup "memberName" paramsEW.metadata).isSome = true) := by
  have hmem1 : ProviderCall.intentCreate paramsDW ∈ (createPaymentIntent envW storeW ibW).calls := by
    decide
  have hmem2 : ProviderCall.intentCreate paramsEW ∈ (submitExpense envW storeW ebW).calls := by
    simp [paramsEW, submitExpense, envW, storeW, ebW, resolveCustomer, alistLookup,
      expenseBodyValid]
    norm_num
  exact ⟨⟨hmem1, (created_intents_carry_join_metadata envW storeW ibW ebW paramsDW).1 hmem1⟩,
    ⟨hmem2, (created_intents_carry_join_metadata envW storeW ibW ebW paramsEW).2 hmem2⟩⟩

/-- Witness for C8: a valid reimbursement request for the unknown member
`mX` is answered 404 with no provider call and the store untouched. -/
theorem reimbursement_missing_member_witness :
    reimbursementBodyValid (fun _ => true) rbW = true ∧ envW.dbPresent = true ∧
    alistLookup (rbW.organizationId, rbW.memberId) storeW.members = none ∧
    processReimbursement (fun _ => true) envW storeW rbW = ⟨404, storeW, []⟩ := by
  have h1 : reimbursementBodyValid (fun _ => true) rbW = true := by
    simp [reimbursementBodyValid, rbW]
    norm_num
  have h2 : alistLookup (rbW.organizationId, rbW.memberId) storeW.members = none := by decide
  exact ⟨h1, rfl, h2,
    reimbursement_missing_member_404_no_calls (fun _ => true) envW storeW rbW h1 rfl h2⟩

/-- Witness for C9: the out-of-order store is returned newest-first with
200, and the member with no records gets 200 and the empty list. -/
theorem history_200_sorted_desc_witness :
    envW.dbPresent = true ∧
    (let r := paymentHistory envW storeH "o1" "m1"
     r.status = 200 ∧
     r.payments.Perm (memberIntentRecords storeH "o1" "m1") ∧
     r.payments.Sorted histLE ∧
     (memberIntentRecords storeH "o1" "m1" = [] → r.payments = [])) ∧
    (paymentHistory envW storeH "o1" "m1").payments = [pirB, pirA] ∧
    paymentHistory envW emptyStore "o1" "m1" = ⟨200, []⟩ :=
  ⟨rfl, history_200_sorted_desc envW storeH "o1" "m1" rfl, by decide, by decide⟩

/-- Witness for C10: the metadata-free payload makes both intent event
types answer 500 with the store untouched. -/
theorem missing_metadata_witness :
    piNoMd.metadata = none ∧
    (webhookRoute envW noFaults [] true (.paymentIntentSucceeded piNoMd) emptyStore =
      ⟨emptyStore, 500, false, true, false, []⟩ ∧
     webhookRoute envW noFaults [] true (.paymentIntentFailed piNoMd) emptyStore =
      ⟨emptyStore, 500, false, true, false, []⟩) :=
  ⟨rfl, missing_metadata_escapes_to_route_catch envW noFaults [] piNoMd emptyStore rfl⟩

end Exchequer
